import Mathlib

/- Shallow embedding of the vessel/alerting core of `src/app/main.py`
   (JaxBrew 2001).  Temperatures are embedded as rationals; timestamps as
   naturals; the random draw of `random.uniform(-0.3, 0.3)` is an explicit
   parameter.  A Python dict field that may be missing is an `Option`;
   `last_in_tolerance` may additionally hold the Python value `None`
   ("start state"), so it is an `Option (Option Bool)`:
   `none` = key absent, `some none` = Python `None`,
   `some (some b)` = previous boolean verdict. -/

namespace JaxBrew

/-- A vessel record, mirroring the dicts of the in-memory `VESSELS`
list (lines 673-752 of main.py).  Fields `id`, `code`, `name`, `type`,
`volume_l`, `heated`, `notes` are present on every seeded vessel;
`current_temp`, `target_temp`, `tolerance_c` are optional because the
core code reads them with `.get` and `setdefault`. -/
structure Vessel where
  id : String
  code : String
  name : String
  type : String
  volume_l : ℚ
  heated : Bool
  notes : String
  current_temp : Option ℚ
  target_temp : Option ℚ
  tolerance_c : Option ℚ
  last_update : ℕ
  last_in_tolerance : Option (Option Bool) := none
  deriving DecidableEq, Repr

/-- Calls to `send_email_alert` / `send_whatsapp_alert` (main.py lines 30-37).
A value of this type records one dispatch call made by the core; the
stubs themselves do nothing, but no call is ever made either. -/
inductive AlertMsg where
  | email (subject : String) (body : String)
  | whatsapp (message : String)
  deriving DecidableEq, Repr

/-- Error taxonomy of the HTTP surface: `HTTPException(404, ...)` is
`notFound`, `HTTPException(400, ...)` is `outOfRange` (spec section 7). -/
inductive ApiError where
  | notFound (detail : String)
  | outOfRange (detail : String)
  deriving DecidableEq, Repr

/-- Outcome of one API call: the response (or error), the vessel list
after the call, and the dispatch calls made during the call. -/
structure ApiOutcome (α : Type) where
  result : Except ApiError α
  state : List Vessel
  sent : List AlertMsg

/-- Lookup `get_vessel` (main.py lines 776-781): first vessel whose `id`
matches, else `None`. -/
def get_vessel (vessel_id : String) : List Vessel → Option Vessel
  | [] => none
  | v :: rest => if v.id = vessel_id then some v else get_vessel vessel_id rest

/-- In-place mutation of the dict found by `get_vessel`: rewrite the
first vessel whose `id` matches, leave the rest alone. -/
def updateVessel (vessel_id : String) (f : Vessel → Vessel) : List Vessel → List Vessel
  | [] => []
  | v :: rest =>
      if v.id = vessel_id then f v :: rest else v :: updateVessel vessel_id f rest

/-- Shape of `vessel_with_status` output (main.py lines 816-827): a copy of the
vessel dict plus an `in_tolerance` flag; here the copy and the flag. -/
structure VesselStatus where
  vessel : Vessel
  in_tolerance : Bool
  deriving DecidableEq, Repr

/-- Evaluator `vessel_with_status` (main.py lines 816-827): `in_tolerance` is
`abs (current - target) <= tol` when all three fields are present,
`False` otherwise; the vessel itself is returned unchanged. -/
def vessel_with_status (v : Vessel) : VesselStatus :=
  let in_tolerance :=
    match v.current_temp, v.target_temp, v.tolerance_c with
    | some current, some target, some tol => decide (|current - target| ≤ tol)
    | _, _, _ => false
  ⟨v, in_tolerance⟩

/-- State machine `check_alerts_for_vessel` (main.py lines 882-890): recompute the
status, store it in `last_in_tolerance`, and — per the source comment
"No alerting while parked" — make no dispatch call at all. -/
def check_alerts_for_vessel (v : Vessel) : Vessel × List AlertMsg :=
  let vs := vessel_with_status v
  ({ v with last_in_tolerance := some (some vs.in_tolerance) }, [])

/-- Flag `DUMMY_MODE` (main.py line 27): simulated telemetry is on. -/
def DUMMY_MODE : Bool := true

/-- Python `round` to an integer: round half to even. -/
def pyRound (q : ℚ) : ℤ :=
  if q - ⌊q⌋ < 1/2 then ⌊q⌋
  else if 1/2 < q - ⌊q⌋ then ⌊q⌋ + 1
  else if (⌊q⌋ : ℤ) % 2 = 0 then ⌊q⌋ else ⌊q⌋ + 1

/-- Python `round(x, 2)`: round to two decimal places, half to even. -/
def round2 (q : ℚ) : ℚ := (pyRound (q * 100) : ℚ) / 100

/-- One vessel step of `simulate_temps` (main.py lines 798-813), with the
uniform draw `r` explicit: move `current_temp` by `r + (target - cur) * 0.05`,
clamp to [15, 25] for a Fermenter and to [0, 100] otherwise, round to two
decimals, stamp `last_update`. -/
def simulate_vessel (r : ℚ) (now : ℕ) (v : Vessel) : Vessel :=
  let cur := v.current_temp.getD 20
  let target := v.target_temp.getD cur
  let diff := target - cur
  let step := r + diff * (5/100)
  let new_temp := cur + step
  let clamped :=
    if v.type = "Fermenter" then max 15 (min 25 new_temp)
    else max 0 (min 100 new_temp)
  { v with current_temp := some (round2 clamped), last_update := now }

/-- The `for v in VESSELS` loop of `simulate_temps`: step each vessel in
order, the i-th vessel consuming the i-th uniform draw. -/
def simulate_list (draw : ℕ → ℚ) (now : ℕ) : ℕ → List Vessel → List Vessel
  | _, [] => []
  | i, v :: rest => simulate_vessel (draw i) now v :: simulate_list draw now (i + 1) rest

/-- Simulator `simulate_temps` (main.py lines 792-813): in dummy mode step every
vessel, with `draw i` the uniform draw used for the i-th vessel;
otherwise do nothing. -/
def simulate_temps (draw : ℕ → ℚ) (now : ℕ) (vs : List Vessel) : List Vessel :=
  if DUMMY_MODE then simulate_list draw now 0 vs else vs

/-- Request body of POST /api/telemetry (main.py lines 994-997). -/
structure Telemetry where
  vesselId : String
  temperature : ℚ
  unit : String := "C"
  deriving DecidableEq, Repr

/-- The successful-path mutation of `api_telemetry` (main.py lines
1538-1544): set `current_temp` and `last_update`, `setdefault` the
target, tolerance and start state, then run `check_alerts_for_vessel`. -/
def telemetry_apply (now : ℕ) (temp : ℚ) (v : Vessel) : Vessel × List AlertMsg :=
  let v1 := { v with
    current_temp := some temp
    last_update := now
    target_temp := some (v.target_temp.getD temp)
    tolerance_c := some (v.tolerance_c.getD 0)
    last_in_tolerance := some (v.last_in_tolerance.getD none) }
  check_alerts_for_vessel v1

/-- Endpoint POST /api/telemetry (main.py lines 1528-1546): 404 for an unknown
vessel, 400 for a temperature outside [-10, 120], both raised before any
mutation; on success apply the reading and return `{ok: true}`. -/
def api_telemetry (now : ℕ) (data : Telemetry) (vs : List Vessel) : ApiOutcome Unit :=
  match get_vessel data.vesselId vs with
  | none => ⟨.error (.notFound "Unknown vessel"), vs, []⟩
  | some _ =>
      if data.temperature < -10 ∨ data.temperature > 120 then
        ⟨.error (.outOfRange "Temperature out of range"), vs, []⟩
      else
        ⟨.ok (), updateVessel data.vesselId (fun v => (telemetry_apply now data.temperature v).1) vs,
          (match get_vessel data.vesselId vs with
           | some v => (telemetry_apply now data.temperature v).2
           | none => [])⟩

/-- Endpoint GET /api/vessels (main.py lines 1513-1516): run the simulator,
then answer with every vessel's status; no dispatch call is made. -/
def api_get_vessels (draw : ℕ → ℚ) (now : ℕ) (vs : List Vessel) :
    ApiOutcome (List VesselStatus) :=
  let vs2 := simulate_temps draw now vs
  ⟨.ok (vs2.map vessel_with_status), vs2, []⟩

/-- Endpoint POST /api/vessels/:id/setpoint (main.py lines 1549-1560): 404 for
an unknown vessel, 400 for a target outside [0, 100]; on success set
`target_temp` and `last_update` and echo the target back. -/
def api_set_setpoint (now : ℕ) (vessel_id : String) (targetTemp : ℚ) (vs : List Vessel) :
    ApiOutcome ℚ :=
  match get_vessel vessel_id vs with
  | none => ⟨.error (.notFound "Unknown vessel"), vs, []⟩
  | some _ =>
      if targetTemp < 0 ∨ targetTemp > 100 then
        ⟨.error (.outOfRange "Target temperature out of range"), vs, []⟩
      else
        ⟨.ok targetTemp,
          updateVessel vessel_id
            (fun v => { v with target_temp := some targetTemp, last_update := now }) vs, []⟩

/-- Endpoint POST /api/vessels/:id/tolerance (main.py lines 1563-1574): 404 for
an unknown vessel, 400 for a tolerance outside [0, 50]; on success set
`tolerance_c` and `last_update` and echo the tolerance back. -/
def api_set_tolerance (now : ℕ) (vessel_id : String) (toleranceC : ℚ) (vs : List Vessel) :
    ApiOutcome ℚ :=
  match get_vessel vessel_id vs with
  | none => ⟨.error (.notFound "Unknown vessel"), vs, []⟩
  | some _ =>
      if toleranceC < 0 ∨ toleranceC > 50 then
        ⟨.error (.outOfRange "Tolerance out of range"), vs, []⟩
      else
        ⟨.ok toleranceC,
          updateVessel vessel_id
            (fun v => { v with tolerance_c := some toleranceC, last_update := now }) vs, []⟩

/-- Repeated simulation of a single vessel: apply one `simulate_vessel`
step per element of `steps` (each element is the uniform draw and the
timestamp of that step). -/
def simulate_iter (steps : List (ℚ × ℕ)) (v : Vessel) : Vessel :=
  steps.foldl (fun w p => simulate_vessel p.1 p.2 w) v

/-- Forget `last_update`, for stating equalities "apart from last_update". -/
def eraseTime (v : Vessel) : Vessel := { v with last_update := 0 }

/-- Every vessel field except `target_temp` and `last_update`: the frame
the setpoint endpoint must preserve. -/
def nonSetpointView (v : Vessel) :
    String × String × String × String × ℚ × Bool × String × Option ℚ × Option ℚ ×
      Option (Option Bool) :=
  (v.id, v.code, v.name, v.type, v.volume_l, v.heated, v.notes, v.current_temp,
    v.tolerance_c, v.last_in_tolerance)

/-- Every vessel field except `tolerance_c` and `last_update`: the frame
the tolerance endpoint must preserve. -/
def nonToleranceView (v : Vessel) :
    String × String × String × String × ℚ × Bool × String × Option ℚ × Option ℚ ×
      Option (Option Bool) :=
  (v.id, v.code, v.name, v.type, v.volume_l, v.heated, v.notes, v.current_temp,
    v.target_temp, v.last_in_tolerance)

/-- The seeded Hot Liquor Tank (main.py lines 674-686), with a fixed id
standing for its GUID. -/
def hlt0 : Vessel :=
  { id := "hlt-guid", code := "hlt", name := "Hot Liquor Tank", type := "HLT",
    volume_l := 100, heated := true, notes := "Electric - main strike & sparge water.",
    current_temp := some 20, target_temp := some 65, tolerance_c := some 2,
    last_update := 0 }

/-- A fermenter previously evaluated in tolerance (`last_in_tolerance =
true`), for exercising the out-of-tolerance edge. -/
def ferm_in : Vessel :=
  { id := "ferm1-guid", code := "fermenter-1", name := "Fermenter 1", type := "Fermenter",
    volume_l := 100, heated := false, notes := "Primary fermentation.",
    current_temp := some 19, target_temp := some 19, tolerance_c := some 2,
    last_update := 0, last_in_tolerance := some (some true) }

/-- A fermenter with a tight tolerance band and a recorded in-tolerance
state, for exercising the simulator path. -/
def ferm_tight : Vessel :=
  { id := "ferm2-guid", code := "fermenter-2", name := "Fermenter 2", type := "Fermenter",
    volume_l := 100, heated := false, notes := "Primary fermentation.",
    current_temp := some 19, target_temp := some 19, tolerance_c := some (1/10),
    last_update := 0, last_in_tolerance := some (some true) }

/-! ### Helper lemmas -/

theorem telemetry_apply_id (now : ℕ) (t : ℚ) (v : Vessel) :
    ((telemetry_apply now t v).1).id = v.id := rfl

theorem telemetry_apply_sent (now : ℕ) (t : ℚ) (v : Vessel) :
    (telemetry_apply now t v).2 = [] := rfl

theorem get_vessel_update_self (vid : String) (f : Vessel → Vessel)
    (hf : ∀ v, (f v).id = v.id) (vs : List Vessel) :
    get_vessel vid (updateVessel vid f vs) = (get_vessel vid vs).map f := by
  induction vs with
  | nil => rfl
  | cons v rest ih =>
      by_cases h : v.id = vid
      · simp [updateVessel, get_vessel, h, hf v]
      · simp [updateVessel, get_vessel, h, ih]

theorem get_vessel_update_other (vid uid : String) (hne : uid ≠ vid)
    (f : Vessel → Vessel) (hf : ∀ v, (f v).id = v.id) (vs : List Vessel) :
    get_vessel uid (updateVessel vid f vs) = get_vessel uid vs := by
  induction vs with
  | nil => rfl
  | cons v rest ih =>
      by_cases h : v.id = vid
      · have h1 : ¬ (f v).id = uid := by rw [hf v, h]; exact fun e => hne e.symm
        have h2 : ¬ v.id = uid := by rw [h]; exact fun e => hne e.symm
        simp [updateVessel, get_vessel, h, h1, h2, Ne.symm hne]
      · simp [updateVessel, get_vessel, h, ih]

theorem update_map_eq {β : Type} (vid : String) (f : Vessel → Vessel) (g : Vessel → β)
    (h : ∀ v, g (f v) = g v) (vs : List Vessel) :
    (updateVessel vid f vs).map g = vs.map g := by
  induction vs with
  | nil => rfl
  | cons v rest ih =>
      by_cases hv : v.id = vid
      · simp [updateVessel, hv, h v]
      · simp [updateVessel, hv, ih]

theorem update_update_map {β : Type} (vid : String) (f1 f2 : Vessel → Vessel)
    (e : Vessel → β) (h1 : ∀ v, (f1 v).id = v.id)
    (h : ∀ v, e (f2 (f1 v)) = e (f1 v)) (vs : List Vessel) :
    (updateVessel vid f2 (updateVessel vid f1 vs)).map e = (updateVessel vid f1 vs).map e := by
  induction vs with
  | nil => rfl
  | cons v rest ih =>
      by_cases hv : v.id = vid
      · have : (f1 v).id = vid := by rw [h1 v, hv]
        simp [updateVessel, hv, this, h v]
      · simp [updateVessel, hv, ih]

theorem pyRound_ge (a : ℤ) (q : ℚ) (h : (a : ℚ) ≤ q) : a ≤ pyRound q := by
  have hfb : a ≤ ⌊q⌋ := Int.le_floor.mpr h
  unfold pyRound
  split_ifs <;> omega

theorem pyRound_le (b : ℤ) (q : ℚ) (h : q ≤ (b : ℚ)) : pyRound q ≤ b := by
  have hfb : ⌊q⌋ ≤ b := by
    have := Int.floor_le_floor h
    simpa using this
  have hfl : (⌊q⌋ : ℚ) ≤ q := Int.floor_le q
  unfold pyRound
  split_ifs with hc1 hc2 hc3
  · exact hfb
  · have hlt : (⌊q⌋ : ℚ) < (b : ℚ) := by linarith
    have : ⌊q⌋ < b := by exact_mod_cast hlt
    omega
  · exact hfb
  · have h1' : (1 : ℚ)/2 ≤ q - ⌊q⌋ := not_lt.mp hc1
    have hlt : (⌊q⌋ : ℚ) < (b : ℚ) := by linarith
    have : ⌊q⌋ < b := by exact_mod_cast hlt
    omega

theorem round2_bounds (a b : ℤ) (q : ℚ) (h1 : (a : ℚ) ≤ q) (h2 : q ≤ (b : ℚ)) :
    (a : ℚ) ≤ round2 q ∧ round2 q ≤ (b : ℚ) := by
  have l1 : a * 100 ≤ pyRound (q * 100) := by
    apply pyRound_ge
    push_cast
    linarith
  have l2 : pyRound (q * 100) ≤ b * 100 := by
    apply pyRound_le
    push_cast
    linarith
  have c1 : ((a * 100 : ℤ) : ℚ) ≤ (pyRound (q * 100) : ℚ) := by exact_mod_cast l1
  have c2 : ((pyRound (q * 100) : ℤ) : ℚ) ≤ ((b * 100 : ℤ) : ℚ) := by exact_mod_cast l2
  unfold round2
  constructor
  · rw [le_div_iff₀ (by norm_num : (0:ℚ) < 100)]
    push_cast at c1 ⊢
    linarith
  · rw [div_le_iff₀ (by norm_num : (0:ℚ) < 100)]
    push_cast at c2 ⊢
    linarith

theorem clamp_mem (lo hi x : ℚ) (h : lo ≤ hi) :
    lo ≤ max lo (min hi x) ∧ max lo (min hi x) ≤ hi :=
  ⟨le_max_left _ _, max_le h (min_le_left _ _)⟩

/-! ### Claim theorems -/

/-- C1: the tolerance evaluator returns `|current - target| <= tolerance`
(inclusive) whenever all three inputs are present, returns `false` when
any of them is absent, and has no side effect (the vessel is returned
unchanged). -/
theorem tolerance_evaluator_correct (v : Vessel) :
    (vessel_with_status v).vessel = v
    ∧ (∀ c t tol : ℚ, v.current_temp = some c → v.target_temp = some t →
        v.tolerance_c = some tol →
        ((vessel_with_status v).in_tolerance = true ↔ |c - t| ≤ tol))
    ∧ ((v.current_temp = none ∨ v.target_temp = none ∨ v.tolerance_c = none) →
        (vessel_with_status v).in_tolerance = false) := by
  refine ⟨rfl, ?_, ?_⟩
  · intro c t tol hc ht htol
    simp [vessel_with_status, hc, ht, htol]
  · intro habs
    rcases hc : v.current_temp with _ | c <;> rcases ht : v.target_temp with _ | t <;>
      rcases htol : v.tolerance_c with _ | tol <;>
      simp [vessel_with_status, hc, ht, htol] at habs ⊢

/-- C1 witness: the seeded Hot Liquor Tank at 20°C against target 65°C
with tolerance 2°C evaluates out of tolerance, and the evaluator leaves
the vessel untouched. -/
theorem tolerance_evaluator_correct_witness :
    ((vessel_with_status hlt0).in_tolerance = true ↔ |(20 : ℚ) - 65| ≤ 2)
    ∧ (vessel_with_status hlt0).vessel = hlt0 :=
  ⟨(tolerance_evaluator_correct hlt0).2.1 20 65 2 rfl rfl rfl,
    (tolerance_evaluator_correct hlt0).1⟩

/-- C2 counterexample: a vessel previously recorded in tolerance
(`last_in_tolerance = true`, target 19 ± 2) receives a reading of 30°C.
The submission succeeds and the state machine records the out-of-tolerance
verdict, yet zero dispatch calls are made — not the one "OUT OF TOLERANCE"
notification the claim requires (main.py's `check_alerts_for_vessel` is
"No alerting while parked"). -/
theorem alert_edge_counterexample :
    ferm_in.last_in_tolerance = some (some true)
    ∧ (api_telemetry 1 { vesselId := "ferm1-guid", temperature := 30, unit := "C" }
        [ferm_in]).result = .ok ()
    ∧ ((get_vessel "ferm1-guid"
        (api_telemetry 1 { vesselId := "ferm1-guid", temperature := 30, unit := "C" }
          [ferm_in]).state).map Vessel.last_in_tolerance) = some (some (some false))
    ∧ (api_telemetry 1 { vesselId := "ferm1-guid", temperature := 30, unit := "C" }
        [ferm_in]).sent = [] := by
  refine ⟨rfl, ?_, ?_, ?_⟩ <;>
    norm_num [api_telemetry, get_vessel, updateVessel, telemetry_apply,
      check_alerts_for_vessel, vessel_with_status, ferm_in]

/-- C2 amended: alerting is disabled in the code — no telemetry
submission ever makes a dispatch call, whatever the previous state and
the new verdict; the state machine only records the verdict. -/
theorem alert_no_dispatch_ever (now : ℕ) (data : Telemetry) (vs : List Vessel) :
    (api_telemetry now data vs).sent = [] := by
  rcases h : get_vessel data.vesselId vs with _ | v
  · simp [api_telemetry, h]
  · by_cases hr : data.temperature < -10 ∨ data.temperature > 120 <;>
      simp [api_telemetry, h, hr, telemetry_apply, check_alerts_for_vessel]

/-- C3: the first telemetry submission after creation (previous alert
state absent or `None`) produces no notification, however far the
reading is from the target. -/
theorem first_submission_silent (now : ℕ) (data : Telemetry) (vs : List Vessel)
    (v : Vessel) (hv : get_vessel data.vesselId vs = some v)
    (hfirst : v.last_in_tolerance = none ∨ v.last_in_tolerance = some none) :
    (api_telemetry now data vs).sent = [] := by
  by_cases hr : data.temperature < -10 ∨ data.temperature > 120 <;>
    simp [api_telemetry, hv, hr, telemetry_apply, check_alerts_for_vessel]

/-- C3 witness: the seeded Hot Liquor Tank (no prior verdict) receives a
first reading of 120°C, 55°C away from its 65°C target: no dispatch
call. -/
theorem first_submission_silent_witness :
    get_vessel "hlt-guid" [hlt0] = some hlt0
    ∧ (hlt0.last_in_tolerance = none ∨ hlt0.last_in_tolerance = some none)
    ∧ (api_telemetry 1 { vesselId := "hlt-guid", temperature := 120, unit := "C" }
        [hlt0]).sent = [] :=
  ⟨rfl, Or.inl rfl,
    first_submission_silent 1 { vesselId := "hlt-guid", temperature := 120, unit := "C" }
      [hlt0] hlt0 rfl (Or.inl rfl)⟩

/-- A per-vessel invariant of one simulation step lifts to the whole
simulated list. -/
theorem simulate_list_map {β : Type} (draw : ℕ → ℚ) (now : ℕ) (g : Vessel → β)
    (hg : ∀ r n v, g (simulate_vessel r n v) = g v) :
    ∀ (i : ℕ) (vs : List Vessel), (simulate_list draw now i vs).map g = vs.map g := by
  intro i vs
  induction vs generalizing i with
  | nil => rfl
  | cons v rest ih => simp [simulate_list, hg, ih]

/-- C4: the telemetry endpoint rejects an unknown vessel with `NotFound`
and a temperature outside [-10, 120] with `OutOfRange`, in both cases
leaving the vessel list untouched (and dispatching nothing); on success
it stores the reading in `current_temp` and stamps `last_update`. -/
theorem telemetry_validation (now : ℕ) (data : Telemetry) (vs : List Vessel) :
    (get_vessel data.vesselId vs = none →
      api_telemetry now data vs = ⟨.error (.notFound "Unknown vessel"), vs, []⟩)
    ∧ (∀ v, get_vessel data.vesselId vs = some v →
        (data.temperature < -10 ∨ data.temperature > 120) →
        api_telemetry now data vs = ⟨.error (.outOfRange "Temperature out of range"), vs, []⟩)
    ∧ (∀ v, get_vessel data.vesselId vs = some v →
        ¬ (data.temperature < -10 ∨ data.temperature > 120) →
        (api_telemetry now data vs).result = .ok ()
        ∧ ∃ v', get_vessel data.vesselId (api_telemetry now data vs).state = some v'
            ∧ v'.current_temp = some data.temperature ∧ v'.last_update = now) := by
  refine ⟨?_, ?_, ?_⟩
  · intro h
    simp [api_telemetry, h]
  · intro v hv hr
    simp [api_telemetry, hv, hr]
  · intro v hv hr
    refine ⟨by simp [api_telemetry, hv, hr], (telemetry_apply now data.temperature v).1, ?_, rfl, rfl⟩
    simp only [api_telemetry, hv, hr, if_false]
    rw [get_vessel_update_self _ _ (fun w => telemetry_apply_id now data.temperature w) vs, hv]
    rfl

/-- C4 witness: a 30°C reading for the seeded Hot Liquor Tank succeeds
and is stored verbatim with the new timestamp. -/
theorem telemetry_validation_witness :
    (api_telemetry 7 { vesselId := "hlt-guid", temperature := 30, unit := "C" }
      [hlt0]).result = .ok ()
    ∧ ∃ v', get_vessel "hlt-guid"
        (api_telemetry 7 { vesselId := "hlt-guid", temperature := 30, unit := "C" }
          [hlt0]).state = some v'
        ∧ v'.current_temp = some 30 ∧ v'.last_update = 7 :=
  (telemetry_validation 7 { vesselId := "hlt-guid", temperature := 30, unit := "C" }
    [hlt0]).2.2 hlt0 rfl (by norm_num)

/-- C5: every successful telemetry submission leaves `last_in_tolerance`
equal to the tolerance verdict of the updated vessel (the state always
advances); the setpoint, tolerance and vessel-listing endpoints never
change any vessel's `last_in_tolerance`; and the tolerance evaluator
never reads it. -/
theorem last_in_tolerance_discipline (now : ℕ) (data : Telemetry) (vs : List Vessel)
    (vid : String) (x : ℚ) (draw : ℕ → ℚ) :
    (∀ v, get_vessel data.vesselId vs = some v →
      (api_telemetry now data vs).result = .ok () →
      ∃ v', get_vessel data.vesselId (api_telemetry now data vs).state = some v'
        ∧ v'.last_in_tolerance = some (some ((vessel_with_status v').in_tolerance)))
    ∧ ((api_set_setpoint now vid x vs).state.map Vessel.last_in_tolerance
        = vs.map Vessel.last_in_tolerance)
    ∧ ((api_set_tolerance now vid x vs).state.map Vessel.last_in_tolerance
        = vs.map Vessel.last_in_tolerance)
    ∧ ((api_get_vessels draw now vs).state.map Vessel.last_in_tolerance
        = vs.map Vessel.last_in_tolerance)
    ∧ (∀ v b, (vessel_with_status { v with last_in_tolerance := b }).in_tolerance
        = (vessel_with_status v).in_tolerance) := by
  refine ⟨?_, ?_, ?_, ?_, fun v b => rfl⟩
  · intro v hv hok
    by_cases hr : data.temperature < -10 ∨ data.temperature > 120
    · simp [api_telemetry, hv, hr] at hok
    · refine ⟨(telemetry_apply now data.temperature v).1, ?_, rfl⟩
      simp only [api_telemetry, hv, hr, if_false]
      rw [get_vessel_update_self _ _ (fun w => telemetry_apply_id now data.temperature w) vs, hv]
      rfl
  · rcases h : get_vessel vid vs with _ | v
    · simp [api_set_setpoint, h]
    · by_cases hr : x < 0 ∨ x > 100
      · simp [api_set_setpoint, h, hr]
      · simp only [api_set_setpoint, h, hr, if_false]
        exact update_map_eq vid
          (fun v => { v with target_temp := some x, last_update := now })
          Vessel.last_in_tolerance (fun w => rfl) vs
  · rcases h : get_vessel vid vs with _ | v
    · simp [api_set_tolerance, h]
    · by_cases hr : x < 0 ∨ x > 50
      · simp [api_set_tolerance, h, hr]
      · simp only [api_set_tolerance, h, hr, if_false]
        exact update_map_eq vid
          (fun v => { v with tolerance_c := some x, last_update := now })
          Vessel.last_in_tolerance (fun w => rfl) vs
  · simpa [api_get_vessels, simulate_temps, DUMMY_MODE] using
      simulate_list_map draw now Vessel.last_in_tolerance (fun r n v => rfl) 0 vs

/-- C5 witness: after the 30°C submission to the previously-in-tolerance
fermenter, `last_in_tolerance` holds exactly the new verdict. -/
theorem last_in_tolerance_discipline_witness :
    ∃ v', get_vessel "ferm1-guid"
        (api_telemetry 1 { vesselId := "ferm1-guid", temperature := 30, unit := "C" }
          [ferm_in]).state = some v'
      ∧ v'.last_in_tolerance = some (some ((vessel_with_status v').in_tolerance)) :=
  (last_in_tolerance_discipline 1
      { vesselId := "ferm1-guid", temperature := 30, unit := "C" } [ferm_in] "x" 0
      (fun _ => 0)).1 ferm_in rfl
    (by norm_num [api_telemetry, get_vessel, ferm_in])

theorem round2_mem_15_25 (q : ℚ) (h1 : 15 ≤ q) (h2 : q ≤ 25) :
    15 ≤ round2 q ∧ round2 q ≤ 25 := by
  have h := round2_bounds 15 25 q (by exact_mod_cast h1) (by exact_mod_cast h2)
  exact ⟨by exact_mod_cast h.1, by exact_mod_cast h.2⟩

theorem round2_mem_0_100 (q : ℚ) (h1 : 0 ≤ q) (h2 : q ≤ 100) :
    0 ≤ round2 q ∧ round2 q ≤ 100 := by
  have h := round2_bounds 0 100 q (by exact_mod_cast h1) (by exact_mod_cast h2)
  exact ⟨by exact_mod_cast h.1, by exact_mod_cast h.2⟩

theorem simulate_vessel_bound (r : ℚ) (n : ℕ) (v : Vessel) (c' : ℚ)
    (hc' : (simulate_vessel r n v).current_temp = some c') :
    (v.type = "Fermenter" → 15 ≤ c' ∧ c' ≤ 25)
    ∧ (v.type ≠ "Fermenter" → 0 ≤ c' ∧ c' ≤ 100) := by
  by_cases ht : v.type = "Fermenter"
  · simp only [simulate_vessel, ht, if_true, Option.some.injEq] at hc'
    refine ⟨fun _ => ?_, fun hne => absurd ht hne⟩
    rw [← hc']
    have hm := clamp_mem 15 25
      ((v.current_temp.getD 20) +
        (r + ((v.target_temp.getD (v.current_temp.getD 20)) - v.current_temp.getD 20) *
          (5/100))) (by norm_num)
    exact round2_mem_15_25 _ hm.1 hm.2
  · simp only [simulate_vessel, ht, if_false, Option.some.injEq] at hc'
    refine ⟨fun hf => absurd hf ht, fun _ => ?_⟩
    rw [← hc']
    have hm := clamp_mem 0 100
      ((v.current_temp.getD 20) +
        (r + ((v.target_temp.getD (v.current_temp.getD 20)) - v.current_temp.getD 20) *
          (5/100))) (by norm_num)
    exact round2_mem_0_100 _ hm.1 hm.2

theorem simulate_iter_bound : ∀ (steps : List (ℚ × ℕ)) (v : Vessel) (c' : ℚ),
    steps ≠ [] → (simulate_iter steps v).current_temp = some c' →
    (v.type = "Fermenter" → 15 ≤ c' ∧ c' ≤ 25)
    ∧ (v.type ≠ "Fermenter" → 0 ≤ c' ∧ c' ≤ 100) := by
  intro steps
  induction steps with
  | nil => intro v c' h; exact absurd rfl h
  | cons p rest ih =>
      intro v c' _ hc'
      rcases hr : rest with _ | ⟨q, rest'⟩
      · subst hr
        exact simulate_vessel_bound p.1 p.2 v c' hc'
      · subst hr
        have hstep : simulate_iter (p :: q :: rest') v
            = simulate_iter (q :: rest') (simulate_vessel p.1 p.2 v) := rfl
        rw [hstep] at hc'
        exact ih (simulate_vessel p.1 p.2 v) c' (by simp) hc'

/-- C6: one simulation step sets `current_temp` to the old value plus the
draw plus `(target - current) * 0.05`, clamped to [15, 25] for a
Fermenter and to [0, 100] otherwise, then rounded to two decimals; and
after any positive number of steps (whatever the draws) a fermenter's
temperature lies in [15, 25] and any other vessel's in [0, 100]. -/
theorem simulator_step_and_clamp :
    (∀ (v : Vessel) (r : ℚ) (now : ℕ) (c t : ℚ),
      v.current_temp = some c → v.target_temp = some t →
      (simulate_vessel r now v).current_temp =
        some (round2 (if v.type = "Fermenter"
          then max 15 (min 25 (c + (r + (t - c) * (5/100))))
          else max 0 (min 100 (c + (r + (t - c) * (5/100)))))))
    ∧ (∀ (steps : List (ℚ × ℕ)) (v : Vessel) (c' : ℚ), steps ≠ [] →
        (simulate_iter steps v).current_temp = some c' →
        (v.type = "Fermenter" → 15 ≤ c' ∧ c' ≤ 25)
        ∧ (v.type ≠ "Fermenter" → 0 ≤ c' ∧ c' ≤ 100)) := by
  constructor
  · intro v r now c t hc htg
    simp [simulate_vessel, hc, htg]
  · exact fun steps v c' h hc' => simulate_iter_bound steps v c' h hc'

/-- C6 witness: one step of the tight fermenter with draw 0.3 yields the
clamped-and-rounded value, which lies in [15, 25]. -/
theorem simulator_step_and_clamp_witness :
    ∃ c', (simulate_iter [(3/10, 2)] ferm_tight).current_temp = some c'
      ∧ 15 ≤ c' ∧ c' ≤ 25 :=
  ⟨_, rfl, (simulator_step_and_clamp.2 [(3/10, 2)] ferm_tight _ (by simp) rfl).1 rfl⟩

/-- C7 counterexample: a vessel-listing query in simulated mode moves the
tight fermenter from 19.0°C to 19.3°C, outside its ±0.1°C band (the
response computes `in_tolerance = false`), yet its stored
`last_in_tolerance` remains the stale `true` and no dispatch call is
made: the alert state machine does not run on the simulator path. -/
theorem sim_chain_counterexample :
    ((api_get_vessels (fun _ => 3/10) 1 [ferm_tight]).state.map Vessel.current_temp
      = [some (193/10)])
    ∧ ((api_get_vessels (fun _ => 3/10) 1 [ferm_tight]).state.map
        (fun v => (vessel_with_status v).in_tolerance) = [false])
    ∧ ferm_tight.last_in_tolerance = some (some true)
    ∧ ((api_get_vessels (fun _ => 3/10) 1 [ferm_tight]).state.map Vessel.last_in_tolerance
      = [some (some true)])
    ∧ (api_get_vessels (fun _ => 3/10) 1 [ferm_tight]).sent = [] := by
  have habs : |(3 : ℚ)/10| = 3/10 := abs_of_nonneg (by norm_num)
  refine ⟨?_, ?_, rfl, ?_, rfl⟩ <;>
    norm_num [api_get_vessels, simulate_temps, DUMMY_MODE, simulate_list, simulate_vessel,
      round2, pyRound, vessel_with_status, ferm_tight, min_def, max_def, habs]

/-- C7 amended: a vessel-listing query in simulated mode advances every
vessel's simulated temperature and evaluates each vessel's tolerance
status for the response, but it does not run the alert state machine:
`last_in_tolerance` is unchanged for every vessel and nothing is
dispatched; only a telemetry submission runs the alert chain. -/
theorem sim_no_alert_chain (draw : ℕ → ℚ) (now : ℕ) (vs : List Vessel) :
    (api_get_vessels draw now vs).state = simulate_temps draw now vs
    ∧ (api_get_vessels draw now vs).result
        = .ok ((simulate_temps draw now vs).map vessel_with_status)
    ∧ ((api_get_vessels draw now vs).state.map Vessel.last_in_tolerance
        = vs.map Vessel.last_in_tolerance)
    ∧ (api_get_vessels draw now vs).sent = [] := by
  refine ⟨rfl, rfl, ?_, rfl⟩
  simpa [api_get_vessels, simulate_temps, DUMMY_MODE] using
    simulate_list_map draw now Vessel.last_in_tolerance (fun r n v => rfl) 0 vs

/-- C8: `setpoint` rejects an unknown vessel with `NotFound` and a target
outside [0, 100] with `OutOfRange`; `tolerance` likewise outside [0, 50];
failures leave the vessel list untouched.  On success each endpoint sets
only its own field plus `last_update` (every other field of every vessel,
`last_in_tolerance` included, is unchanged, and other vessels are
untouched), echoes the value, and dispatches nothing — no re-evaluation
happens. -/
theorem setters_validation_and_frame (now : ℕ) (vid : String) (x : ℚ) (vs : List Vessel) :
    (get_vessel vid vs = none →
      api_set_setpoint now vid x vs = ⟨.error (.notFound "Unknown vessel"), vs, []⟩
      ∧ api_set_tolerance now vid x vs = ⟨.error (.notFound "Unknown vessel"), vs, []⟩)
    ∧ (∀ v, get_vessel vid vs = some v → (x < 0 ∨ x > 100) →
        api_set_setpoint now vid x vs
          = ⟨.error (.outOfRange "Target temperature out of range"), vs, []⟩)
    ∧ (∀ v, get_vessel vid vs = some v → (x < 0 ∨ x > 50) →
        api_set_tolerance now vid x vs
          = ⟨.error (.outOfRange "Tolerance out of range"), vs, []⟩)
    ∧ (∀ v, get_vessel vid vs = some v → ¬ (x < 0 ∨ x > 100) →
        (api_set_setpoint now vid x vs).result = .ok x
        ∧ get_vessel vid (api_set_setpoint now vid x vs).state
            = some { v with target_temp := some x, last_update := now }
        ∧ (api_set_setpoint now vid x vs).state.map nonSetpointView = vs.map nonSetpointView
        ∧ (∀ uid, uid ≠ vid →
            get_vessel uid (api_set_setpoint now vid x vs).state = get_vessel uid vs)
        ∧ (api_set_setpoint now vid x vs).sent = [])
    ∧ (∀ v, get_vessel vid vs = some v → ¬ (x < 0 ∨ x > 50) →
        (api_set_tolerance now vid x vs).result = .ok x
        ∧ get_vessel vid (api_set_tolerance now vid x vs).state
            = some { v with tolerance_c := some x, last_update := now }
        ∧ (api_set_tolerance now vid x vs).state.map nonToleranceView = vs.map nonToleranceView
        ∧ (∀ uid, uid ≠ vid →
            get_vessel uid (api_set_tolerance now vid x vs).state = get_vessel uid vs)
        ∧ (api_set_tolerance now vid x vs).sent = []) := by
  refine ⟨?_, ?_, ?_, ?_, ?_⟩
  · intro h
    constructor <;> simp [api_set_setpoint, api_set_tolerance, h]
  · intro v hv hr
    simp [api_set_setpoint, hv, hr]
  · intro v hv hr
    simp [api_set_tolerance, hv, hr]
  · intro v hv hr
    refine ⟨by simp [api_set_setpoint, hv, hr], ?_, ?_, ?_, by simp [api_set_setpoint, hv, hr]⟩
    · simp only [api_set_setpoint, hv, hr, if_false]
      rw [get_vessel_update_self vid
        (fun w => { w with target_temp := some x, last_update := now })
        (fun w => rfl) vs, hv]
      rfl
    · simp only [api_set_setpoint, hv, hr, if_false]
      exact update_map_eq vid
        (fun w => { w with target_temp := some x, last_update := now })
        nonSetpointView (fun w => rfl) vs
    · intro uid huid
      simp only [api_set_setpoint, hv, hr, if_false]
      exact get_vessel_update_other vid uid huid
        (fun w => { w with target_temp := some x, last_update := now }) (fun w => rfl) vs
  · intro v hv hr
    refine ⟨by simp [api_set_tolerance, hv, hr], ?_, ?_, ?_, by simp [api_set_tolerance, hv, hr]⟩
    · simp only [api_set_tolerance, hv, hr, if_false]
      rw [get_vessel_update_self vid
        (fun w => { w with tolerance_c := some x, last_update := now })
        (fun w => rfl) vs, hv]
      rfl
    · simp only [api_set_tolerance, hv, hr, if_false]
      exact update_map_eq vid
        (fun w => { w with tolerance_c := some x, last_update := now })
        nonToleranceView (fun w => rfl) vs
    · intro uid huid
      simp only [api_set_tolerance, hv, hr, if_false]
      exact get_vessel_update_other vid uid huid
        (fun w => { w with tolerance_c := some x, last_update := now }) (fun w => rfl) vs

/-- C8 witness: setting the Hot Liquor Tank's target to 70°C and its
tolerance to 3°C both succeed, each touching only its own field plus
`last_update`. -/
theorem setters_validation_and_frame_witness :
    (api_set_setpoint 5 "hlt-guid" 70 [hlt0]).result = .ok 70
    ∧ get_vessel "hlt-guid" (api_set_setpoint 5 "hlt-guid" 70 [hlt0]).state
        = some { hlt0 with target_temp := some 70, last_update := 5 }
    ∧ (api_set_tolerance 5 "hlt-guid" 3 [hlt0]).result = .ok 3
    ∧ (api_set_tolerance 5 "hlt-guid" 3 [hlt0]).state.map nonToleranceView
        = [hlt0].map nonToleranceView :=
  ⟨((setters_validation_and_frame 5 "hlt-guid" 70 [hlt0]).2.2.2.1 hlt0 rfl (by norm_num)).1,
    ((setters_validation_and_frame 5 "hlt-guid" 70 [hlt0]).2.2.2.1 hlt0 rfl (by norm_num)).2.1,
    ((setters_validation_and_frame 5 "hlt-guid" 3 [hlt0]).2.2.2.2 hlt0 rfl (by norm_num)).1,
    ((setters_validation_and_frame 5 "hlt-guid" 3 [hlt0]).2.2.2.2 hlt0 rfl (by norm_num)).2.2.1⟩

theorem telemetry_apply_idem (now1 now2 : ℕ) (t : ℚ) (v : Vessel) :
    eraseTime ((telemetry_apply now2 t ((telemetry_apply now1 t v).1)).1)
      = eraseTime ((telemetry_apply now1 t v).1) := by
  simp [telemetry_apply, check_alerts_for_vessel, vessel_with_status, eraseTime]

/-- C9: resubmitting the same reading immediately after a successful
submission succeeds again, makes no dispatch call, and leaves every
vessel identical apart from `last_update`: the state machine reacts to
the computed verdict, which is unchanged. -/
theorem telemetry_retry_idempotent (now1 now2 : ℕ) (data : Telemetry) (vs : List Vessel)
    (hok : (api_telemetry now1 data vs).result = .ok ()) :
    (api_telemetry now2 data (api_telemetry now1 data vs).state).result = .ok ()
    ∧ (api_telemetry now2 data (api_telemetry now1 data vs).state).sent = []
    ∧ (api_telemetry now2 data (api_telemetry now1 data vs).state).state.map eraseTime
        = (api_telemetry now1 data vs).state.map eraseTime := by
  rcases h : get_vessel data.vesselId vs with _ | v
  · simp [api_telemetry, h] at hok
  · by_cases hr : data.temperature < -10 ∨ data.temperature > 120
    · simp [api_telemetry, h, hr] at hok
    · have hs1 : (api_telemetry now1 data vs).state
          = updateVessel data.vesselId
              (fun w => (telemetry_apply now1 data.temperature w).1) vs := by
        simp [api_telemetry, h, hr]
      have hfind : get_vessel data.vesselId
            (updateVessel data.vesselId
              (fun w => (telemetry_apply now1 data.temperature w).1) vs)
          = some ((telemetry_apply now1 data.temperature v).1) := by
        rw [get_vessel_update_self data.vesselId
          (fun w => (telemetry_apply now1 data.temperature w).1)
          (fun w => telemetry_apply_id now1 data.temperature w) vs, h]
        rfl
      refine ⟨?_, ?_, ?_⟩ <;> rw [hs1]
      · simp [api_telemetry, hfind, hr]
      · simp [api_telemetry, hfind, hr, telemetry_apply_sent]
      · have hs2 : (api_telemetry now2 data
              (updateVessel data.vesselId
                (fun w => (telemetry_apply now1 data.temperature w).1) vs)).state
            = updateVessel data.vesselId
                (fun w => (telemetry_apply now2 data.temperature w).1)
                (updateVessel data.vesselId
                  (fun w => (telemetry_apply now1 data.temperature w).1) vs) := by
          simp [api_telemetry, hfind, hr]
        rw [hs2]
        exact update_update_map data.vesselId
          (fun w => (telemetry_apply now1 data.temperature w).1)
          (fun w => (telemetry_apply now2 data.temperature w).1)
          eraseTime (fun w => telemetry_apply_id now1 data.temperature w)
          (fun w => telemetry_apply_idem now1 now2 data.temperature w) vs

/-- C9 witness: submitting 30°C to the Hot Liquor Tank twice (timestamps
1 then 2) leaves the state identical apart from `last_update`. -/
theorem telemetry_retry_idempotent_witness :
    (api_telemetry 2 { vesselId := "hlt-guid", temperature := 30, unit := "C" }
        ((api_telemetry 1 { vesselId := "hlt-guid", temperature := 30, unit := "C" }
          [hlt0]).state)).state.map eraseTime
      = (api_telemetry 1 { vesselId := "hlt-guid", temperature := 30, unit := "C" }
          [hlt0]).state.map eraseTime :=
  (telemetry_retry_idempotent 1 2
    { vesselId := "hlt-guid", temperature := 30, unit := "C" } [hlt0]
    (by norm_num [api_telemetry, get_vessel, hlt0])).2.2

/-- C10: the `unit` field of the telemetry body is never read — two
submissions differing only in `unit` give the same outcome (response,
state and dispatches), and the reading is stored as-is with no
conversion. -/
theorem telemetry_unit_ignored (now : ℕ) (vid : String) (t : ℚ) (u1 u2 : String)
    (vs : List Vessel) :
    (api_telemetry now { vesselId := vid, temperature := t, unit := u1 } vs
      = api_telemetry now { vesselId := vid, temperature := t, unit := u2 } vs)
    ∧ (∀ v, get_vessel vid vs = some v → ¬ (t < -10 ∨ t > 120) →
        ∃ v', get_vessel vid
            (api_telemetry now { vesselId := vid, temperature := t, unit := u1 } vs).state
            = some v'
          ∧ v'.current_temp = some t) := by
  refine ⟨rfl, ?_⟩
  intro v hv hr
  refine ⟨(telemetry_apply now t v).1, ?_, rfl⟩
  simp only [api_telemetry, hv, hr, if_false]
  rw [get_vessel_update_self vid (fun w => (telemetry_apply now t w).1)
    (fun w => telemetry_apply_id now t w) vs, hv]
  rfl

/-- C10 witness: a 50°F-labelled reading for the Hot Liquor Tank is
stored as 50 with no conversion. -/
theorem telemetry_unit_ignored_witness :
    ∃ v', get_vessel "hlt-guid"
        (api_telemetry 3 { vesselId := "hlt-guid", temperature := 50, unit := "F" }
          [hlt0]).state = some v'
      ∧ v'.current_temp = some 50 :=
  (telemetry_unit_ignored 3 "hlt-guid" 50 "F" "K" [hlt0]).2 hlt0 rfl (by norm_num)

end JaxBrew
